import Mathlib

/-!
Verification of the ImGui constructor shim (src/GhosttyBridge/ImGuiShims.c).

The C file declares two external mangled C++ constructor symbols,

  void _ZN12ImFontConfigC1Ev(void* self);
  void _ZN10ImGuiStyleC1Ev(void* self);

and defines two plain-named C forwarders,

  void ImFontConfig_ImFontConfig(void* self) { _ZN12ImFontConfigC1Ev(self); }
  void ImGuiStyle_ImGuiStyle(void* self)     { _ZN10ImGuiStyleC1Ev(self); }

We embed the bodies of these C functions in a small straight-line/branching
command language that can express everything a body of this shim could do
(delegate to a constructor, dereference memory, write memory, touch a module
global, log, allocate, branch on a null test), so that properties such as
"no branching", "the handle is never inspected" and "no side effect beyond
the one delegated call" are facts about the embedded bodies rather than
artifacts of an impoverished model.  The externally supplied constructors
are opaque: an environment maps each constructor symbol to an arbitrary
effect on the heap.
-/

/-- A handle is an opaque pointer value; the null pointer is 0. -/
abbrev Handle := Nat

/-- The null handle (C NULL). -/
def nullHandle : Handle := 0

/-- The two external mangled constructor symbols declared by the shim. -/
inductive Ctor where
  | imFontConfigC1
  | imGuiStyleC1
  deriving DecidableEq, Repr, BEq

/-- The linker-level mangled name of each external constructor symbol,
as declared at the top of the C file. -/
def mangledName : Ctor → String
  | .imFontConfigC1 => "_ZN12ImFontConfigC1Ev"
  | .imGuiStyleC1 => "_ZN10ImGuiStyleC1Ev"

/-- Expressions available to a shim body.  The C bodies have a single
parameter `self`; an expression is that parameter, the null pointer, or a
constant. -/
inductive Expr where
  | self
  | null
  | const (n : Nat)
  deriving DecidableEq, Repr

/-- Evaluate an expression given the value of the `self` parameter. -/
def evalExpr (self : Handle) : Expr → Handle
  | .self => self
  | .null => 0
  | .const n => n

/-- Whether an expression reads the `self` parameter. -/
def Expr.mentionsSelf : Expr → Bool
  | .self => true
  | .null => false
  | .const _ => false

/-- A shim function body: a sequence of commands ending in `ret`.  Besides
the delegated constructor call, the language can dereference memory,
store to memory, write a module global, log, allocate, and branch on a
null test — everything a C body in this file could have done, so that the
absence of those behaviours in the actual bodies is a provable fact. -/
inductive Body where
  | ret
  | callCtor (c : Ctor) (arg : Expr) (k : Body)
  | load (addr : Expr) (k : Body)
  | store (addr : Expr) (val : Nat) (k : Body)
  | setGlobal (val : Nat) (k : Body)
  | logMsg (m : Nat) (k : Body)
  | allocOne (k : Body)
  | ifNull (e : Expr) (thn els : Body)
  deriving DecidableEq, Repr

/-- The machine state a shim call can observe or affect: the heap (contents
of memory, indexed by handle), the shim's own module-global storage, the
log, an allocation counter, and the trace of delegated external
constructor calls (symbol and argument value, in order). -/
structure State where
  heap : Handle → Nat
  shimGlobal : Nat
  logMsgs : List Nat
  allocCount : Nat
  callTrace : List (Ctor × Handle)

/-- The environment supplies the externally linked constructors: each symbol
is an arbitrary, opaque transformation of the heap, given the handle it is
invoked on. -/
structure Env where
  extCtor : Ctor → Handle → (Handle → Nat) → (Handle → Nat)

/-- Execute a body.  Dereferencing or storing through a null pointer is a
fault of the executed code itself and yields `none`; a delegated
constructor call applies the environment's opaque heap effect and records
the call in the trace. -/
def exec (env : Env) (self : Handle) : Body → State → Option State
  | .ret, s => some s
  | .callCtor c a k, s =>
      exec env self k
        { s with
          heap := env.extCtor c (evalExpr self a) s.heap
          callTrace := s.callTrace ++ [(c, evalExpr self a)] }
  | .load a k, s =>
      if evalExpr self a = 0 then none else exec env self k s
  | .store a v k, s =>
      if evalExpr self a = 0 then none
      else exec env self k { s with heap := Function.update s.heap (evalExpr self a) v }
  | .setGlobal v k, s => exec env self k { s with shimGlobal := v }
  | .logMsg m k, s => exec env self k { s with logMsgs := s.logMsgs ++ [m] }
  | .allocOne k, s => exec env self k { s with allocCount := s.allocCount + 1 }
  | .ifNull e thn els, s =>
      if evalExpr self e = 0 then exec env self thn s else exec env self els s

/-- Body of `void ImFontConfig_ImFontConfig(void* self)`: the single
statement `_ZN12ImFontConfigC1Ev(self);`. -/
def ImFontConfig_ImFontConfig : Body :=
  .callCtor .imFontConfigC1 .self .ret

/-- Body of `void ImGuiStyle_ImGuiStyle(void* self)`: the single statement
`_ZN10ImGuiStyleC1Ev(self);`. -/
def ImGuiStyle_ImGuiStyle : Body :=
  .callCtor .imGuiStyleC1 .self .ret

/-- Calling the underlying mangled constructor directly on handle `h`
(the spec's comparison point for the forwarders): the heap undergoes
exactly that constructor's effect and the call is recorded. -/
def directCtorCall (env : Env) (c : Ctor) (h : Handle) (s : State) : State :=
  { s with
    heap := env.extCtor c h s.heap
    callTrace := s.callTrace ++ [(c, h)] }

/-- A C-level symbol exported by this translation unit: its linker name,
its number of parameters, whether it returns void, and its body. -/
structure CSymbol where
  name : String
  argCount : Nat
  returnsVoid : Bool
  body : Body

/-- The symbols this file defines and exports, in source order. -/
def exportedSymbols : List CSymbol :=
  [ ⟨"ImFontConfig_ImFontConfig", 1, true, ImFontConfig_ImFontConfig⟩,
    ⟨"ImGuiStyle_ImGuiStyle", 1, true, ImGuiStyle_ImGuiStyle⟩ ]

/-- Number of conditional branches in a body. -/
def Body.branchCount : Body → Nat
  | .ret => 0
  | .callCtor _ _ k => k.branchCount
  | .load _ k => k.branchCount
  | .store _ _ k => k.branchCount
  | .setGlobal _ k => k.branchCount
  | .logMsg _ k => k.branchCount
  | .allocOne k => k.branchCount
  | .ifNull _ thn els => 1 + thn.branchCount + els.branchCount

/-- The external constructor symbols a body calls, in order, over all
syntactic occurrences. -/
def Body.callees : Body → List Ctor
  | .ret => []
  | .callCtor c _ k => c :: k.callees
  | .load _ k => k.callees
  | .store _ _ k => k.callees
  | .setGlobal _ k => k.callees
  | .logMsg _ k => k.callees
  | .allocOne k => k.callees
  | .ifNull _ thn els => thn.callees ++ els.callees

/-- Whether a body ever dereferences, stores through, or branches on a test
of its `self` parameter — i.e. inspects the handle in any way. -/
def Body.inspectsSelf : Body → Bool
  | .ret => false
  | .callCtor _ _ k => k.inspectsSelf
  | .load a k => a.mentionsSelf || k.inspectsSelf
  | .store a _ k => a.mentionsSelf || k.inspectsSelf
  | .setGlobal _ k => k.inspectsSelf
  | .logMsg _ k => k.inspectsSelf
  | .allocOne k => k.inspectsSelf
  | .ifNull e thn els => e.mentionsSelf || thn.inspectsSelf || els.inspectsSelf

/-- Whether a body is free of any memory/global/log/allocation access of
its own: its only commands are delegated constructor calls and return. -/
def Body.ownAccessFree : Body → Bool
  | .ret => true
  | .callCtor _ _ k => k.ownAccessFree
  | .load _ _ => false
  | .store _ _ _ => false
  | .setGlobal _ _ => false
  | .logMsg _ _ => false
  | .allocOne _ => false
  | .ifNull _ thn els => thn.ownAccessFree && els.ownAccessFree

/-- The mangled external symbols the whole translation unit requires at
link time: the mangled names of every constructor called from an exported
body, deduplicated in order of first use. -/
def requiredMangledSymbols : List String :=
  (((exportedSymbols.map (fun f => f.body.callees)).flatten).map mangledName).dedup

/-- C1: for every environment, handle and state, running the style
forwarder `ImGuiStyle_ImGuiStyle` is observably identical to invoking the
underlying mangled `ImGuiStyle` constructor directly on the same handle
(identical post-state, in particular identical pointed-to storage), and
likewise the font-config forwarder matches a direct call of the mangled
`ImFontConfig` constructor: the forwarders alter nothing themselves. -/
theorem forwarders_refine_direct_ctor_call :
    ∀ (env : Env) (h : Handle) (s : State),
      exec env h ImGuiStyle_ImGuiStyle s = some (directCtorCall env .imGuiStyleC1 h s) ∧
      exec env h ImFontConfig_ImFontConfig s = some (directCtorCall env .imFontConfigC1 h s) :=
  fun _ _ _ => ⟨rfl, rfl⟩

/-- C2: each entry point delegates with no transformation of its argument:
the recorded delegated call carries exactly the handle value the caller
supplied, and neither body ever inspects that handle. -/
theorem entry_points_pass_handle_unchanged :
    ∀ (env : Env) (h : Handle) (s : State),
      (exec env h ImFontConfig_ImFontConfig s).map State.callTrace
          = some (s.callTrace ++ [(.imFontConfigC1, h)]) ∧
      (exec env h ImGuiStyle_ImGuiStyle s).map State.callTrace
          = some (s.callTrace ++ [(.imGuiStyleC1, h)]) ∧
      Body.inspectsSelf ImFontConfig_ImFontConfig = false ∧
      Body.inspectsSelf ImGuiStyle_ImGuiStyle = false :=
  fun _ _ _ => ⟨rfl, rfl, rfl, rfl⟩

/-- C3 counterexample: the translation unit exports no symbol named
`initialize_font_config` and no symbol named `initialize_style`; the two
exported names are `ImFontConfig_ImFontConfig` and
`ImGuiStyle_ImGuiStyle`. -/
theorem no_initialize_named_exports :
    (exportedSymbols.map CSymbol.name).contains "initialize_font_config" = false ∧
    (exportedSymbols.map CSymbol.name).contains "initialize_style" = false := by
  decide

/-- C3 amended: the program exports exactly two plain, C-callable symbols,
named `ImFontConfig_ImFontConfig` and `ImGuiStyle_ImGuiStyle`, each taking
one opaque handle argument and returning nothing. -/
theorem exported_symbol_names_and_signatures :
    exportedSymbols.map CSymbol.name
        = ["ImFontConfig_ImFontConfig", "ImGuiStyle_ImGuiStyle"] ∧
    exportedSymbols.all (fun f => f.argCount == 1 && f.returnsVoid) = true := by
  decide

/-- C4: a call to either entry point performs exactly one delegated
constructor call and nothing else: the log, the allocation counter and the
shim's global storage are untouched, the call trace grows by exactly the
one delegated call, and the heap undergoes exactly the delegated
constructor's effect. -/
theorem forwarder_frame_effect :
    ∀ (env : Env) (h : Handle) (s : State),
      (∃ s₁, exec env h ImFontConfig_ImFontConfig s = some s₁ ∧
        s₁.logMsgs = s.logMsgs ∧ s₁.allocCount = s.allocCount ∧
        s₁.shimGlobal = s.shimGlobal ∧
        s₁.callTrace = s.callTrace ++ [(.imFontConfigC1, h)] ∧
        s₁.heap = env.extCtor .imFontConfigC1 h s.heap) ∧
      (∃ s₂, exec env h ImGuiStyle_ImGuiStyle s = some s₂ ∧
        s₂.logMsgs = s.logMsgs ∧ s₂.allocCount = s.allocCount ∧
        s₂.shimGlobal = s.shimGlobal ∧
        s₂.callTrace = s.callTrace ++ [(.imGuiStyleC1, h)] ∧
        s₂.heap = env.extCtor .imGuiStyleC1 h s.heap) :=
  fun _ _ _ =>
    ⟨⟨_, rfl, rfl, rfl, rfl, rfl, rfl⟩, ⟨_, rfl, rfl, rfl, rfl, rfl, rfl⟩⟩

/-- C5: neither entry point validates its input or signals an error: for
every handle, including the null one, execution succeeds in this layer
(no fault, no error branch — the bodies contain no branch at all) and the
result is exactly that of the delegated external constructor call. -/
theorem no_validation_no_error_path :
    (∀ (env : Env) (h : Handle) (s : State),
        (exec env h ImFontConfig_ImFontConfig s).isSome = true ∧
        (exec env h ImGuiStyle_ImGuiStyle s).isSome = true ∧
        exec env h ImFontConfig_ImFontConfig s
            = some (directCtorCall env .imFontConfigC1 h s) ∧
        exec env h ImGuiStyle_ImGuiStyle s
            = some (directCtorCall env .imGuiStyleC1 h s)) ∧
    Body.branchCount ImFontConfig_ImFontConfig = 0 ∧
    Body.branchCount ImGuiStyle_ImGuiStyle = 0 :=
  ⟨fun _ _ _ => ⟨rfl, rfl, rfl, rfl⟩, rfl, rfl⟩

/-- C6: control flow of every call is caller → plain-named function → the
one mangled constructor → return: each body contains no branch (and the
body language has no loop construct), its only command is the single
delegated constructor call, and — the external constructor being modelled
as a returning function — every call terminates with a final state. -/
theorem straight_line_control_flow :
    Body.branchCount ImFontConfig_ImFontConfig = 0 ∧
    Body.branchCount ImGuiStyle_ImGuiStyle = 0 ∧
    Body.callees ImFontConfig_ImFontConfig = [Ctor.imFontConfigC1] ∧
    Body.callees ImGuiStyle_ImGuiStyle = [Ctor.imGuiStyleC1] ∧
    (∀ (env : Env) (h : Handle) (s : State),
        ∃ s₁, exec env h ImFontConfig_ImFontConfig s = some s₁) ∧
    (∀ (env : Env) (h : Handle) (s : State),
        ∃ s₂, exec env h ImGuiStyle_ImGuiStyle s = some s₂) :=
  ⟨rfl, rfl, rfl, rfl, fun _ _ _ => ⟨_, rfl⟩, fun _ _ _ => ⟨_, rfl⟩⟩

/-- C7: the component is stateless and deterministic: a call leaves the
shim's own global storage unchanged, and the heap effect of a call depends
only on the handle and on the current heap — two states agreeing on the
heap (whatever their call histories, logs or counters) yield equal
post-heaps. -/
theorem forwarders_stateless_history_independent (env : Env) (h : Handle)
    (s₁ s₂ : State) (hh : s₁.heap = s₂.heap) :
    (exec env h ImFontConfig_ImFontConfig s₁).map State.heap
        = (exec env h ImFontConfig_ImFontConfig s₂).map State.heap ∧
    (exec env h ImGuiStyle_ImGuiStyle s₁).map State.heap
        = (exec env h ImGuiStyle_ImGuiStyle s₂).map State.heap ∧
    (exec env h ImFontConfig_ImFontConfig s₁).map State.shimGlobal
        = some s₁.shimGlobal ∧
    (exec env h ImGuiStyle_ImGuiStyle s₁).map State.shimGlobal
        = some s₁.shimGlobal :=
  ⟨congrArg (fun hp => some (env.extCtor .imFontConfigC1 h hp)) hh,
   congrArg (fun hp => some (env.extCtor .imGuiStyleC1 h hp)) hh,
   rfl, rfl⟩

/-- C7 witness: the statelessness theorem applied at a concrete
environment, handle, and two concrete states that agree on the heap but
differ in global storage, log, counter and call history. -/
theorem forwarders_stateless_history_independent_witness :
    (exec ⟨fun _ _ hp => hp⟩ 5 ImFontConfig_ImFontConfig
        ⟨fun _ => 0, 0, [], 0, []⟩).map State.heap
      = (exec ⟨fun _ _ hp => hp⟩ 5 ImFontConfig_ImFontConfig
        ⟨fun _ => 0, 7, [3], 2, [(.imGuiStyleC1, 9)]⟩).map State.heap :=
  (forwarders_stateless_history_independent ⟨fun _ _ hp => hp⟩ 5
      ⟨fun _ => 0, 0, [], 0, []⟩
      ⟨fun _ => 0, 7, [3], 2, [(.imGuiStyleC1, 9)]⟩ rfl).1

/-- C8: no data race or cross-call interaction originates in this layer:
neither body performs any memory, global, log or allocation access of its
own (its sole command is the delegated call), and whenever the two
external constructor effects commute on the given handles — the model of
calls on independent storage — the two shim calls commute as well: either
interleaving order yields the same heap. -/
theorem shim_layer_race_free (env : Env) (h₁ h₂ : Handle) (s : State)
    (hind : ∀ hp, env.extCtor .imFontConfigC1 h₁ (env.extCtor .imGuiStyleC1 h₂ hp)
        = env.extCtor .imGuiStyleC1 h₂ (env.extCtor .imFontConfigC1 h₁ hp)) :
    Body.ownAccessFree ImFontConfig_ImFontConfig = true ∧
    Body.ownAccessFree ImGuiStyle_ImGuiStyle = true ∧
    ((exec env h₁ ImFontConfig_ImFontConfig s).bind
        (exec env h₂ ImGuiStyle_ImGuiStyle)).map State.heap
      = ((exec env h₂ ImGuiStyle_ImGuiStyle s).bind
        (exec env h₁ ImFontConfig_ImFontConfig)).map State.heap :=
  ⟨rfl, rfl, congrArg some (hind s.heap).symm⟩

/-- C8 witness: the race-freedom theorem applied at a concrete environment
whose external constructors are the identity heap effect (which commute),
on distinct handles. -/
theorem shim_layer_race_free_witness :
    ((exec ⟨fun _ _ hp => hp⟩ 1 ImFontConfig_ImFontConfig
        ⟨fun _ => 0, 0, [], 0, []⟩).bind
      (exec ⟨fun _ _ hp => hp⟩ 2 ImGuiStyle_ImGuiStyle)).map State.heap
    = ((exec ⟨fun _ _ hp => hp⟩ 2 ImGuiStyle_ImGuiStyle
        ⟨fun _ => 0, 0, [], 0, []⟩).bind
      (exec ⟨fun _ _ hp => hp⟩ 1 ImFontConfig_ImFontConfig)).map State.heap :=
  (shim_layer_race_free ⟨fun _ _ hp => hp⟩ 1 2
      ⟨fun _ => 0, 0, [], 0, []⟩ (fun _ => rfl)).2.2

/-- C9: the forwarder bodies never dereference, compare or otherwise
inspect the handle, so even on the null handle the shim's own code cannot
fault: execution succeeds and the null value is passed through unchanged
to the external constructor. -/
theorem forwarders_never_inspect_handle :
    Body.inspectsSelf ImFontConfig_ImFontConfig = false ∧
    Body.inspectsSelf ImGuiStyle_ImGuiStyle = false ∧
    (∀ (env : Env) (s : State),
      (exec env nullHandle ImFontConfig_ImFontConfig s).isSome = true ∧
      (exec env nullHandle ImGuiStyle_ImGuiStyle s).isSome = true ∧
      (exec env nullHandle ImFontConfig_ImFontConfig s).map State.callTrace
          = some (s.callTrace ++ [(.imFontConfigC1, nullHandle)]) ∧
      (exec env nullHandle ImGuiStyle_ImGuiStyle s).map State.callTrace
          = some (s.callTrace ++ [(.imGuiStyleC1, nullHandle)])) :=
  ⟨rfl, rfl, fun _ _ => ⟨rfl, rfl, rfl, rfl⟩⟩

/-- C10: the forwarders are correctly paired and disjoint: the font-config
entry point calls only `_ZN12ImFontConfigC1Ev` and never the style
constructor, the style entry point calls only `_ZN10ImGuiStyleC1Ev` and
never the font-config constructor, and these two are exactly the external
symbols the translation unit requires. -/
theorem ctor_pairing_disjoint :
    Body.callees ImFontConfig_ImFontConfig = [Ctor.imFontConfigC1] ∧
    Body.callees ImGuiStyle_ImGuiStyle = [Ctor.imGuiStyleC1] ∧
    mangledName .imFontConfigC1 = "_ZN12ImFontConfigC1Ev" ∧
    mangledName .imGuiStyleC1 = "_ZN10ImGuiStyleC1Ev" ∧
    (Body.callees ImFontConfig_ImFontConfig).contains .imGuiStyleC1 = false ∧
    (Body.callees ImGuiStyle_ImGuiStyle).contains .imFontConfigC1 = false ∧
    requiredMangledSymbols = ["_ZN12ImFontConfigC1Ev", "_ZN10ImGuiStyleC1Ev"] := by
  refine ⟨rfl, rfl, rfl, rfl, rfl, rfl, ?_⟩
  decide
